import Mathlib

/-!
Shallow embedding of the snapshot diff and metrics computation engine of the
`three_kingdoms_strategy` backend, translated from
`src/backend/src/services/period_metrics_service.py` and
`src/backend/src/services/battle_event_service.py`.

Conventions of the embedding:
- Python `int` counters become `Int`.
- `decimal.Decimal` division followed by `quantize(Decimal("0.01"))`
  (default rounding: ROUND_HALF_EVEN) is embedded as an integer count of
  cents computed by `roundHalfEven (100 * diff) days`; `round(x, 1)` on a
  float is embedded as exact half-even rounding of a rational to tenths.
- UUIDs become `Nat` identifiers; the `member_id -> snapshot` dict built
  from a snapshot list becomes `List.find?` on the list (each upload's
  snapshot list carries one row per member, so first match = dict lookup).
- Repository persistence is dropped: each service entry point becomes a
  pure function from the data it reads to the records it would insert.
-/

namespace TKS

/-- One member row of a CSV upload: point-in-time cumulative counters
(`MemberSnapshot` as consumed by the services). -/
structure MemberSnapshot where
  id : Nat
  member_id : Nat
  member_name : String
  total_contribution : Int
  total_merit : Int
  total_assist : Int
  total_donation : Int
  power_value : Int
  contribution_rank : Int
  state : String
  group_name : Option String
  deriving Repr, DecidableEq

/-- Event category enum from `src/models/battle_event.py` usage:
BATTLE, SIEGE, FORBIDDEN. -/
inductive EventCategory where
  | battle
  | siege
  | forbidden
  deriving Repr, DecidableEq

/-- Round `num / den` (for `0 < den`) to the nearest integer, ties to even:
the ROUND_HALF_EVEN rule that `decimal.Decimal.quantize` applies under
Python's default context. -/
def roundHalfEven (num den : Int) : Int :=
  let q := num / den
  let r := num % den
  if 2 * r < den then q
  else if den < 2 * r then q + 1
  else if q % 2 = 0 then q else q + 1

/-- `Decimal(diff) / Decimal(days)` quantized to two decimal places,
represented as an integer count of hundredths. -/
def dailyCents (diff days : Int) : Int :=
  roundHalfEven (100 * diff) days

/-- `round(x, 1)` on an exact rational: half-even rounding to tenths. -/
def ratRound1 (x : ℚ) : ℚ :=
  (roundHalfEven (10 * x.num) (x.den : Int) : ℚ) / 10

/-- `_determine_participation` of `battle_event_service.py`: category predicate
returning `(participated, is_absent)`. -/
def determine_participation (event_type : EventCategory)
    (contribution_diff merit_diff assist_diff power_diff : Int) : Bool × Bool :=
  let participated : Bool :=
    if event_type = .siege then
      decide (0 < contribution_diff) || decide (0 < assist_diff)
    else if event_type = .forbidden then
      false
    else
      decide (0 < merit_diff)
  let is_absent : Bool := if event_type ≠ .forbidden then !participated else false
  (participated, is_absent)

/-- One `BattleEventMetricsCreate` row (joined with the member name and group
that the `WithMember` read model carries). -/
structure BattleEventMetrics where
  member_id : Nat
  member_name : String
  group_name : Option String
  start_snapshot_id : Option Nat
  end_snapshot_id : Option Nat
  contribution_diff : Int
  merit_diff : Int
  assist_diff : Int
  donation_diff : Int
  power_diff : Int
  participated : Bool
  is_new_member : Bool
  is_absent : Bool
  deriving Repr, DecidableEq

/-- `process_event_snapshots`, existing-member branch: the member appears in
both the before map and the after map. -/
def eventPairMetrics (event_type : EventCategory)
    (before_snap after_snap : MemberSnapshot) : BattleEventMetrics :=
  let contribution_diff :=
    max 0 (after_snap.total_contribution - before_snap.total_contribution)
  let merit_diff := max 0 (after_snap.total_merit - before_snap.total_merit)
  let assist_diff := max 0 (after_snap.total_assist - before_snap.total_assist)
  let donation_diff := max 0 (after_snap.total_donation - before_snap.total_donation)
  let power_diff := after_snap.power_value - before_snap.power_value
  let pa := determine_participation event_type contribution_diff merit_diff
    assist_diff power_diff
  { member_id := after_snap.member_id
    member_name := after_snap.member_name
    group_name := after_snap.group_name
    start_snapshot_id := some before_snap.id
    end_snapshot_id := some after_snap.id
    contribution_diff := contribution_diff
    merit_diff := merit_diff
    assist_diff := assist_diff
    donation_diff := donation_diff
    power_diff := power_diff
    participated := pa.1
    is_new_member := false
    is_absent := pa.2 }

/-- `process_event_snapshots`, new-member branch: only in the after map. -/
def eventNewMemberMetrics (after_snap : MemberSnapshot) : BattleEventMetrics :=
  { member_id := after_snap.member_id
    member_name := after_snap.member_name
    group_name := after_snap.group_name
    start_snapshot_id := none
    end_snapshot_id := some after_snap.id
    contribution_diff := 0
    merit_diff := 0
    assist_diff := 0
    donation_diff := 0
    power_diff := 0
    participated := false
    is_new_member := true
    is_absent := false }

/-- `process_event_snapshots`, departed-member branch: only in the before map. -/
def eventDepartedMetrics (before_snap : MemberSnapshot) : BattleEventMetrics :=
  { member_id := before_snap.member_id
    member_name := before_snap.member_name
    group_name := before_snap.group_name
    start_snapshot_id := some before_snap.id
    end_snapshot_id := none
    contribution_diff := 0
    merit_diff := 0
    assist_diff := 0
    donation_diff := 0
    power_diff := 0
    participated := false
    is_new_member := false
    is_absent := true }

/-- Steps 3 and 5 of `process_event_snapshots`: iterate the after map
(members that participated or joined), then the before-only members. -/
def process_event_metrics (event_type : EventCategory)
    (before_snapshots after_snapshots : List MemberSnapshot) :
    List BattleEventMetrics :=
  (after_snapshots.map fun after_snap =>
    match before_snapshots.find? (fun b => b.member_id = after_snap.member_id) with
    | some before_snap => eventPairMetrics event_type before_snap after_snap
    | none => eventNewMemberMetrics after_snap) ++
  ((before_snapshots.filter fun before_snap =>
      after_snapshots.all fun a => a.member_id ≠ before_snap.member_id).map
    eventDepartedMetrics)

/-- The `EventSummary` read model, with floats embedded as exact rationals. -/
structure EventSummary where
  total_members : Nat
  participated_count : Nat
  absent_count : Nat
  new_member_count : Nat
  participation_rate : ℚ
  total_merit : Int
  total_assist : Int
  total_contribution : Int
  avg_merit : ℚ
  avg_assist : ℚ
  avg_contribution : ℚ
  mvp_member_id : Option Nat
  mvp_member_name : Option String
  mvp_merit : Option Int
  contribution_mvp_member_id : Option Nat
  contribution_mvp_name : Option String
  contribution_mvp_score : Option Int
  assist_mvp_member_id : Option Nat
  assist_mvp_name : Option String
  assist_mvp_score : Option Int
  mvp_contribution : Option Int
  mvp_assist : Option Int
  mvp_combined_score : Option Int
  violator_count : Nat
  deriving Repr, DecidableEq

/-- The summary returned by `_calculate_summary_from_metrics` on an empty
metrics list. -/
def emptyEventSummary : EventSummary :=
  { total_members := 0
    participated_count := 0
    absent_count := 0
    new_member_count := 0
    participation_rate := 0
    total_merit := 0
    total_assist := 0
    total_contribution := 0
    avg_merit := 0
    avg_assist := 0
    avg_contribution := 0
    mvp_member_id := none
    mvp_member_name := none
    mvp_merit := none
    contribution_mvp_member_id := none
    contribution_mvp_name := none
    contribution_mvp_score := none
    assist_mvp_member_id := none
    assist_mvp_name := none
    assist_mvp_score := none
    mvp_contribution := none
    mvp_assist := none
    mvp_combined_score := none
    violator_count := 0 }

/-- Python `max(candidates, key=f)`: the first element attaining the maximum
key among a nonempty list (`max` keeps the earliest of equal keys). -/
def maxByKey (f : BattleEventMetrics → Int) (m : BattleEventMetrics)
    (ms : List BattleEventMetrics) : BattleEventMetrics :=
  ms.foldl (fun best x => if best.1 < f x then (f x, x) else best) (f m, m) |>.2

/-- `_calculate_summary_from_metrics` of `battle_event_service.py`: the locals
are computed (the category branches fill the MVP/violator variables, which
start out `None`/`0`) and one `EventSummary(...)` is built at the end. -/
def calc_summary_from_metrics (metrics : List BattleEventMetrics)
    (event_type : EventCategory) : EventSummary :=
  match metrics with
  | [] => emptyEventSummary
  | m₀ :: rest =>
    let metrics := m₀ :: rest
    let total_members := metrics.length
    let participated_count := metrics.countP (·.participated)
    let new_member_count := metrics.countP (·.is_new_member)
    let absent_count := metrics.countP (·.is_absent)
    let eligible_members : Int := (total_members : Int) - (new_member_count : Int)
    let participation_rate : ℚ :=
      if 0 < eligible_members then
        (participated_count : ℚ) / (eligible_members : ℚ) * 100
      else 0
    let total_merit : Int := (metrics.map (·.merit_diff)).sum
    let total_assist : Int := (metrics.map (·.assist_diff)).sum
    let total_contribution : Int := (metrics.map (·.contribution_diff)).sum
    let avg_merit : ℚ :=
      if 0 < participated_count then (total_merit : ℚ) / (participated_count : ℚ) else 0
    let avg_assist : ℚ :=
      if 0 < participated_count then (total_assist : ℚ) / (participated_count : ℚ) else 0
    let avg_contribution : ℚ :=
      if 0 < participated_count then
        (total_contribution : ℚ) / (participated_count : ℚ)
      else 0
    let contribution_mvp : Option BattleEventMetrics :=
      if event_type = .siege then
        match metrics.filter (fun m => 0 < m.contribution_diff) with
        | [] => none
        | c :: cs => some (maxByKey (·.contribution_diff) c cs)
      else none
    let assist_mvp : Option BattleEventMetrics :=
      if event_type = .siege then
        match metrics.filter (fun m => 0 < m.assist_diff) with
        | [] => none
        | a :: as_ => some (maxByKey (·.assist_diff) a as_)
      else none
    let combined_mvp : Option BattleEventMetrics :=
      if event_type = .siege then
        let mvp := maxByKey (fun m => m.contribution_diff + m.assist_diff) m₀ rest
        if 0 < mvp.contribution_diff + mvp.assist_diff then some mvp else none
      else none
    let battle_mvp : Option BattleEventMetrics :=
      if event_type = .siege ∨ event_type = .forbidden then none
      else
        let mvp := maxByKey (·.merit_diff) m₀ rest
        if 0 < mvp.merit_diff then some mvp else none
    let violator_count : Nat :=
      if event_type = .forbidden then metrics.countP (fun m => 0 < m.power_diff) else 0
    { total_members := total_members
      participated_count := participated_count
      absent_count := absent_count
      new_member_count := new_member_count
      participation_rate := ratRound1 participation_rate
      total_merit := total_merit
      total_assist := total_assist
      total_contribution := total_contribution
      avg_merit := ratRound1 avg_merit
      avg_assist := ratRound1 avg_assist
      avg_contribution := ratRound1 avg_contribution
      mvp_member_id := battle_mvp.map (·.member_id)
      mvp_member_name := battle_mvp.map (·.member_name)
      mvp_merit := battle_mvp.map (·.merit_diff)
      contribution_mvp_member_id := contribution_mvp.map (·.member_id)
      contribution_mvp_name := contribution_mvp.map (·.member_name)
      contribution_mvp_score := contribution_mvp.map (·.contribution_diff)
      assist_mvp_member_id := assist_mvp.map (·.member_id)
      assist_mvp_name := assist_mvp.map (·.member_name)
      assist_mvp_score := assist_mvp.map (·.assist_diff)
      mvp_contribution := combined_mvp.map (·.contribution_diff)
      mvp_assist := combined_mvp.map (·.assist_diff)
      mvp_combined_score := combined_mvp.map (fun m => m.contribution_diff + m.assist_diff)
      violator_count := violator_count }

/-- The `GroupEventStats` read model. -/
structure GroupEventStats where
  group_name : String
  member_count : Nat
  participated_count : Nat
  absent_count : Nat
  participation_rate : ℚ
  total_merit : Int
  avg_merit : ℚ
  merit_min : Int
  merit_max : Int
  total_contribution : Int
  avg_contribution : ℚ
  total_assist : Int
  avg_assist : ℚ
  combined_min : Int
  combined_max : Int
  violator_count : Nat
  deriving Repr, DecidableEq

/-- Python `min(v :: vs)` / `max(v :: vs)` on a nonempty list of ints. -/
def listMin (v : Int) (vs : List Int) : Int := vs.foldl min v

def listMax (v : Int) (vs : List Int) : Int := vs.foldl max v

/-- `_calculate_group_stats` of `battle_event_service.py`. -/
def calc_group_stats (group_name : String) (metrics : List BattleEventMetrics)
    (event_type : EventCategory) : GroupEventStats :=
  let eligible := metrics.filter (fun m => !m.is_new_member)
  let member_count := eligible.length
  let participated_count := eligible.countP (·.participated)
  let absent_count := eligible.countP (·.is_absent)
  let participation_rate : ℚ :=
    if 0 < member_count then
      (participated_count : ℚ) / (member_count : ℚ) * 100
    else 0
  let participants := eligible.filter (·.participated)
  let base : GroupEventStats :=
    { group_name := group_name
      member_count := member_count
      participated_count := participated_count
      absent_count := absent_count
      participation_rate := ratRound1 participation_rate
      total_merit := 0
      avg_merit := 0
      merit_min := 0
      merit_max := 0
      total_contribution := 0
      avg_contribution := 0
      total_assist := 0
      avg_assist := 0
      combined_min := 0
      combined_max := 0
      violator_count := 0 }
  if event_type = .battle then
    match participants.map (·.merit_diff) with
    | [] => base
    | v :: vs =>
      let total_merit := (v :: vs).sum
      { base with
        total_merit := total_merit
        avg_merit := ratRound1 ((total_merit : ℚ) / ((v :: vs).length : ℚ))
        merit_min := listMin v vs
        merit_max := listMax v vs }
  else if event_type = .siege then
    let contribution_values := participants.map (·.contribution_diff)
    let assist_values := participants.map (·.assist_diff)
    let combined_values := participants.map (fun m => m.contribution_diff + m.assist_diff)
    match contribution_values, assist_values, combined_values with
    | c :: cs, a :: as_, k :: ks =>
      let total_contribution := (c :: cs).sum
      let total_assist := (a :: as_).sum
      { base with
        total_contribution := total_contribution
        avg_contribution := ratRound1 ((total_contribution : ℚ) / ((c :: cs).length : ℚ))
        total_assist := total_assist
        avg_assist := ratRound1 ((total_assist : ℚ) / ((a :: as_).length : ℚ))
        combined_min := listMin k ks
        combined_max := listMax k ks }
    | _, _, _ => base
  else
    { base with violator_count := eligible.countP (fun m => 0 < m.power_diff) }

/-- Group key used by `get_event_group_analytics`:
`m.group_name or "未分組"`. -/
def groupKeyOf (m : BattleEventMetrics) : String :=
  m.group_name.getD "未分組"

/-- The keys of the `groups` dict of `get_event_group_analytics`, in
insertion order (order of each group's first member record). -/
def groupKeys (metrics : List BattleEventMetrics) : List String :=
  metrics.foldl
    (fun acc m => if groupKeyOf m ∈ acc then acc else acc ++ [groupKeyOf m]) []

/-- The `groups` dict of `get_event_group_analytics` as an association list in
insertion order; each key maps to its member records in input order. -/
def groupedMetrics (metrics : List BattleEventMetrics) :
    List (String × List BattleEventMetrics) :=
  (groupKeys metrics).map fun g => (g, metrics.filter (fun m => groupKeyOf m = g))

/-- The `group_stats` list of `get_event_group_analytics` before sorting. -/
def groupStatsList (metrics : List BattleEventMetrics)
    (event_type : EventCategory) : List GroupEventStats :=
  (groupedMetrics metrics).map fun gp => calc_group_stats gp.1 gp.2 event_type

/-- The sort key of the `group_stats.sort(...)` calls in
`get_event_group_analytics`: the category's primary metric. -/
def groupPrimary (event_type : EventCategory) (g : GroupEventStats) : Int :=
  if event_type = .siege then g.total_contribution + g.total_assist
  else if event_type = .forbidden then (g.violator_count : Int)
  else g.total_merit

/-- The comparison realizing `sort(key=primary, reverse=True)`: `a` may stay
before `b` iff `primary b ≤ primary a`. -/
def groupLE (event_type : EventCategory) (a b : GroupEventStats) : Bool :=
  decide (groupPrimary event_type b ≤ groupPrimary event_type a)

/-- `group_stats.sort(key=primary, reverse=True)`: Python's stable descending
sort, embedded as a stable merge sort with `le a b := primary b ≤ primary a`. -/
def sortedGroupStats (metrics : List BattleEventMetrics)
    (event_type : EventCategory) : List GroupEventStats :=
  (groupStatsList metrics event_type).mergeSort (groupLE event_type)

/-- A `datetime` value as far as the period service observes it: the calendar
day (`.date()`, as an ordinal day count) plus the time of day used only for
ordering. -/
structure UploadDateTime where
  day : Int
  tod : Nat
  deriving Repr, DecidableEq

/-- `datetime` ordering, lexicographic on (day, time of day). -/
def UploadDateTime.le (a b : UploadDateTime) : Bool :=
  decide (a.day < b.day) || (decide (a.day = b.day) && decide (a.tod ≤ b.tod))

/-- A `CsvUpload` together with the member snapshots fetched for it by
`_snapshot_repo.get_by_upload` (one row per member). -/
structure CsvUpload where
  id : Nat
  snapshot_date : UploadDateTime
  snapshots : List MemberSnapshot
  deriving Repr, DecidableEq

/-- The `Period` record created by the period service (dates as ordinal day
counts). -/
structure Period where
  start_upload_id : Option Nat
  end_upload_id : Nat
  start_date : Int
  end_date : Int
  days : Int
  period_number : Nat
  deriving Repr, DecidableEq

/-- One `member_period_metrics` row, with the `Decimal` daily rates held as
integer counts of hundredths. -/
structure MemberPeriodMetrics where
  member_id : Nat
  start_snapshot_id : Option Nat
  end_snapshot_id : Nat
  contribution_diff : Int
  merit_diff : Int
  assist_diff : Int
  donation_diff : Int
  power_diff : Int
  daily_contribution_cents : Int
  daily_merit_cents : Int
  daily_assist_cents : Int
  daily_donation_cents : Int
  start_rank : Option Int
  end_rank : Int
  rank_change : Option Int
  end_power : Int
  end_state : String
  end_group : Option String
  is_new_member : Bool
  deriving Repr, DecidableEq

/-- `_build_period_metrics` of `period_metrics_service.py`: a member present
in both the start and the end snapshot of a period. -/
def build_period_metrics (start_snapshot end_snapshot : MemberSnapshot)
    (days : Int) : MemberPeriodMetrics :=
  let contribution_diff :=
    max 0 (end_snapshot.total_contribution - start_snapshot.total_contribution)
  let merit_diff := max 0 (end_snapshot.total_merit - start_snapshot.total_merit)
  let assist_diff := max 0 (end_snapshot.total_assist - start_snapshot.total_assist)
  let donation_diff := max 0 (end_snapshot.total_donation - start_snapshot.total_donation)
  let power_diff := end_snapshot.power_value - start_snapshot.power_value
  { member_id := end_snapshot.member_id
    start_snapshot_id := some start_snapshot.id
    end_snapshot_id := end_snapshot.id
    contribution_diff := contribution_diff
    merit_diff := merit_diff
    assist_diff := assist_diff
    donation_diff := donation_diff
    power_diff := power_diff
    daily_contribution_cents := dailyCents contribution_diff days
    daily_merit_cents := dailyCents merit_diff days
    daily_assist_cents := dailyCents assist_diff days
    daily_donation_cents := dailyCents donation_diff days
    start_rank := some start_snapshot.contribution_rank
    end_rank := end_snapshot.contribution_rank
    rank_change := some (start_snapshot.contribution_rank - end_snapshot.contribution_rank)
    end_power := end_snapshot.power_value
    end_state := end_snapshot.state
    end_group := end_snapshot.group_name
    is_new_member := false }

/-- `_build_first_period_metrics`: a member of the season's first period, or a
member who joined within a later period (diff = raw totals). -/
def build_first_period_metrics (end_snapshot : MemberSnapshot)
    (days : Int) : MemberPeriodMetrics :=
  { member_id := end_snapshot.member_id
    start_snapshot_id := none
    end_snapshot_id := end_snapshot.id
    contribution_diff := end_snapshot.total_contribution
    merit_diff := end_snapshot.total_merit
    assist_diff := end_snapshot.total_assist
    donation_diff := end_snapshot.total_donation
    power_diff := end_snapshot.power_value
    daily_contribution_cents := dailyCents end_snapshot.total_contribution days
    daily_merit_cents := dailyCents end_snapshot.total_merit days
    daily_assist_cents := dailyCents end_snapshot.total_assist days
    daily_donation_cents := dailyCents end_snapshot.total_donation days
    start_rank := none
    end_rank := end_snapshot.contribution_rank
    rank_change := none
    end_power := end_snapshot.power_value
    end_state := end_snapshot.state
    end_group := end_snapshot.group_name
    is_new_member := true }

/-- `_calculate_first_period`: from the season start date to the first upload.
Returns the period and the metric rows it inserts, or `none` when
`days <= 0`. -/
def calc_first_period (season_start_date : Int) (end_upload : CsvUpload)
    (period_number : Nat) : Option (Period × List MemberPeriodMetrics) :=
  let end_date := end_upload.snapshot_date.day
  let days := end_date - season_start_date
  if days ≤ 0 then none
  else
    some
      ({ start_upload_id := none
         end_upload_id := end_upload.id
         start_date := season_start_date
         end_date := end_date
         days := days
         period_number := period_number },
       end_upload.snapshots.map fun end_snap =>
         build_first_period_metrics end_snap days)

/-- `_calculate_period`: between two consecutive uploads. Returns the period
and the metric rows it inserts, or `none` when `days <= 0`. -/
def calc_period (start_upload end_upload : CsvUpload)
    (period_number : Nat) : Option (Period × List MemberPeriodMetrics) :=
  let start_date := start_upload.snapshot_date.day
  let end_date := end_upload.snapshot_date.day
  let days := end_date - start_date
  if days ≤ 0 then none
  else
    some
      ({ start_upload_id := some start_upload.id
         end_upload_id := end_upload.id
         start_date := start_date
         end_date := end_date
         days := days
         period_number := period_number },
       end_upload.snapshots.map fun end_snap =>
         match start_upload.snapshots.find? (fun s => s.member_id = end_snap.member_id) with
         | some start_snap => build_period_metrics start_snap end_snap days
         | none => build_first_period_metrics end_snap days)

/-- The loop body of `calculate_periods_for_season` for uploads after the
first: pair each upload with its predecessor; `period_number = i + 1` follows
the position in the sorted upload list whether or not a period is created. -/
def period_candidates_rest (prev : CsvUpload) (rest : List CsvUpload)
    (number : Nat) : List (Option (Period × List MemberPeriodMetrics)) :=
  match rest with
  | [] => []
  | u :: us => calc_period prev u number :: period_candidates_rest u us (number + 1)

/-- All candidate periods of `calculate_periods_for_season`, in upload order;
`none` marks a candidate skipped by the `days <= 0` guard. -/
def period_candidates (season_start_date : Int) (sorted_uploads : List CsvUpload) :
    List (Option (Period × List MemberPeriodMetrics)) :=
  match sorted_uploads with
  | [] => []
  | u₀ :: rest => calc_first_period season_start_date u₀ 1 ::
      period_candidates_rest u₀ rest 2

/-- `calculate_periods_for_season`, as the pure function from the season start
date and the season's uploads to the periods (with their metric rows) it
creates: uploads are sorted ascending by `snapshot_date` and skipped
candidates are dropped (`if period: created_periods.append(period)`). -/
def calculate_periods_for_season (season_start_date : Int)
    (uploads : List CsvUpload) : List (Period × List MemberPeriodMetrics) :=
  let sorted := uploads.mergeSort fun a b =>
    UploadDateTime.le a.snapshot_date b.snapshot_date
  (period_candidates season_start_date sorted).filterMap id

/-- The stored periods and period metrics of one season. -/
structure SeasonStore where
  periods : List (Period × List MemberPeriodMetrics)
  deriving Repr, DecidableEq

/-- One run of `calculate_periods_for_season` against the store: step 3
deletes every existing period and metric row of the season, step 4 inserts
the freshly computed ones, so the resulting store never depends on the
previous one. -/
def run_period_calculation (season_start_date : Int) (uploads : List CsvUpload)
    (_store : SeasonStore) : SeasonStore :=
  { periods := calculate_periods_for_season season_start_date uploads }

/-! ## Concrete inputs used by counterexamples and witnesses -/

/-- Upload dated on the season start day itself (day 0), with no member rows. -/
def counterexampleUpload₁ : CsvUpload :=
  { id := 1
    snapshot_date := { day := 0, tod := 0 }
    snapshots := [] }

/-- Upload dated seven days after the season start, with no member rows. -/
def counterexampleUpload₂ : CsvUpload :=
  { id := 2
    snapshot_date := { day := 7, tod := 0 }
    snapshots := [] }

/-- A member snapshot with all counters zero. -/
def zeroSnapshot : MemberSnapshot :=
  { id := 1
    member_id := 1
    member_name := "甲"
    total_contribution := 0
    total_merit := 0
    total_assist := 0
    total_donation := 0
    power_value := 0
    contribution_rank := 1
    state := "駐守"
    group_name := none }

/-- The same member as `zeroSnapshot`, later, with 500 more contribution and
everything else unchanged. -/
def contributionOnlySnapshot : MemberSnapshot :=
  { zeroSnapshot with id := 2, total_contribution := 500 }

/-- Scenario A/B start snapshot: cumulative contribution 7000. -/
def scenarioStartSnapshot : MemberSnapshot :=
  { zeroSnapshot with id := 3, total_contribution := 7000 }

/-- Scenario B end snapshot: cumulative contribution 12000. -/
def scenarioEndSnapshot : MemberSnapshot :=
  { zeroSnapshot with id := 4, total_contribution := 12000 }

/-- An event metric record in group "A" with merit 10, used to witness sort
stability. -/
def stableWitnessMetric₁ : BattleEventMetrics :=
  { member_id := 1
    member_name := "甲"
    group_name := some "A"
    start_snapshot_id := some 1
    end_snapshot_id := some 2
    contribution_diff := 0
    merit_diff := 10
    assist_diff := 0
    donation_diff := 0
    power_diff := 0
    participated := true
    is_new_member := false
    is_absent := false }

/-- An event metric record in group "B" with the same merit 10. -/
def stableWitnessMetric₂ : BattleEventMetrics :=
  { stableWitnessMetric₁ with member_id := 2, member_name := "乙", group_name := some "B" }

/-! ## Helper lemmas -/

theorem roundHalfEven_branches (num den : Int) :
    (roundHalfEven num den = num / den ∧ 2 * (num % den) ≤ den) ∨
    (roundHalfEven num den = num / den + 1 ∧ den ≤ 2 * (num % den)) := by
  simp only [roundHalfEven]
  split_ifs with h1 h2 h3
  · exact Or.inl ⟨rfl, by linarith⟩
  · exact Or.inr ⟨rfl, by linarith⟩
  · exact Or.inl ⟨rfl, by linarith⟩
  · exact Or.inr ⟨rfl, by linarith⟩

theorem roundHalfEven_nonneg (num den : Int) (hden : 0 < den) (hnum : 0 ≤ num) :
    0 ≤ roundHalfEven num den := by
  have hq : 0 ≤ num / den := Int.ediv_nonneg hnum hden.le
  rcases roundHalfEven_branches num den with ⟨h, -⟩ | ⟨h, -⟩ <;> rw [h] <;> linarith

theorem roundHalfEven_le (num den M : Int) (hden : 0 < den) (h : num ≤ M * den) :
    roundHalfEven num den ≤ M := by
  have hdiv : den * (num / den) + num % den = num := Int.ediv_add_emod num den
  have hmod : 0 ≤ num % den := Int.emod_nonneg num (by omega)
  have hlt : num % den < den := Int.emod_lt_of_pos num hden
  have hqM : num / den ≤ M := by
    have h1 : den * (num / den) ≤ den * M := by linarith
    exact le_of_mul_le_mul_left h1 hden
  rcases roundHalfEven_branches num den with ⟨he, hb⟩ | ⟨he, hb⟩
  · rw [he]; exact hqM
  · rw [he]
    have hr : 0 < num % den := by linarith
    have h4 : den * (num / den) < den * M := by linarith
    have h5 := lt_of_mul_lt_mul_left h4 hden.le
    omega

/-- The half-even rounded quotient is within half a unit of the exact
quotient: `|roundHalfEven num den - num/den| ≤ 1/2`, stated over `Int`. -/
theorem roundHalfEven_err (num den : Int) (hden : 0 < den) :
    2 * |roundHalfEven num den * den - num| ≤ den := by
  have hdiv : den * (num / den) + num % den = num := Int.ediv_add_emod num den
  have hmod : 0 ≤ num % den := Int.emod_nonneg num (by omega)
  have hlt : num % den < den := Int.emod_lt_of_pos num hden
  rcases roundHalfEven_branches num den with ⟨he, hb⟩ | ⟨he, hb⟩ <;>
    rcases abs_cases (roundHalfEven num den * den - num) with ⟨ha, -⟩ | ⟨ha, -⟩ <;>
    rw [ha, he] <;> nlinarith

theorem ratRound1_zero : ratRound1 0 = 0 := by
  norm_num [ratRound1, roundHalfEven]

theorem ratRound1_bounds (x : ℚ) (h0 : 0 ≤ x) (h100 : x ≤ 100) :
    0 ≤ ratRound1 x ∧ ratRound1 x ≤ 100 := by
  have hden : (0 : Int) < (x.den : Int) := by exact_mod_cast x.pos
  have hdq : (0 : ℚ) < (x.den : ℚ) := by exact_mod_cast x.pos
  have hnum0 : 0 ≤ x.num := Rat.num_nonneg.mpr h0
  have hnum100 : x.num ≤ 100 * (x.den : Int) := by
    have hx : (x.num : ℚ) / (x.den : ℚ) = x := Rat.num_div_den x
    have h1 : (x.num : ℚ) / (x.den : ℚ) ≤ 100 := by rw [hx]; exact h100
    have h2 : (x.num : ℚ) ≤ 100 * (x.den : ℚ) := (div_le_iff₀ hdq).mp h1
    exact_mod_cast h2
  have hlow : 0 ≤ roundHalfEven (10 * x.num) (x.den : Int) :=
    roundHalfEven_nonneg _ _ hden (by linarith)
  have hhigh : roundHalfEven (10 * x.num) (x.den : Int) ≤ 1000 :=
    roundHalfEven_le _ _ 1000 hden (by linarith)
  unfold ratRound1
  constructor
  · exact div_nonneg (by exact_mod_cast hlow) (by norm_num)
  · rw [div_le_iff₀ (by norm_num : (0:ℚ) < 10)]
    calc (roundHalfEven (10 * x.num) (x.den : Int) : ℚ) ≤ 1000 := by exact_mod_cast hhigh
    _ = 100 * 10 := by norm_num

theorem countP_add_countP_le_length {α : Type} (l : List α) (p q : α → Bool)
    (h : ∀ x ∈ l, p x = true → q x = false) :
    l.countP p + l.countP q ≤ l.length := by
  induction l with
  | nil => simp
  | cons a t ih =>
    have ht := ih fun x hx => h x (List.mem_cons_of_mem a hx)
    rw [List.countP_cons, List.countP_cons, List.length_cons]
    by_cases hp : p a = true
    · have hq : q a = false := h a (List.mem_cons_self a t) hp
      rw [if_pos hp, if_neg (by rw [hq]; exact Bool.false_ne_true)]
      omega
    · rw [if_neg hp]
      by_cases hq : q a = true
      · rw [if_pos hq]; omega
      · rw [if_neg hq]; omega

/-! ## C1: cumulative diffs are clamped at zero, power diff is signed -/

/-- C1. For a member present in both the start and the end snapshot, the
period metrics builder and the event metrics builder both compute each
cumulative diff as `max 0 (end - start)` — hence never negative — and the
power diff as the signed difference `end - start`. -/
theorem cumulative_diffs_clamped_power_signed (event_type : EventCategory)
    (s1 s2 : MemberSnapshot) (days : Int) :
    ((build_period_metrics s1 s2 days).contribution_diff =
        max 0 (s2.total_contribution - s1.total_contribution) ∧
      (build_period_metrics s1 s2 days).merit_diff =
        max 0 (s2.total_merit - s1.total_merit) ∧
      (build_period_metrics s1 s2 days).assist_diff =
        max 0 (s2.total_assist - s1.total_assist) ∧
      (build_period_metrics s1 s2 days).donation_diff =
        max 0 (s2.total_donation - s1.total_donation) ∧
      (build_period_metrics s1 s2 days).power_diff =
        s2.power_value - s1.power_value) ∧
    ((eventPairMetrics event_type s1 s2).contribution_diff =
        max 0 (s2.total_contribution - s1.total_contribution) ∧
      (eventPairMetrics event_type s1 s2).merit_diff =
        max 0 (s2.total_merit - s1.total_merit) ∧
      (eventPairMetrics event_type s1 s2).assist_diff =
        max 0 (s2.total_assist - s1.total_assist) ∧
      (eventPairMetrics event_type s1 s2).donation_diff =
        max 0 (s2.total_donation - s1.total_donation) ∧
      (eventPairMetrics event_type s1 s2).power_diff =
        s2.power_value - s1.power_value) ∧
    (0 ≤ (build_period_metrics s1 s2 days).contribution_diff ∧
      0 ≤ (build_period_metrics s1 s2 days).merit_diff ∧
      0 ≤ (build_period_metrics s1 s2 days).assist_diff ∧
      0 ≤ (build_period_metrics s1 s2 days).donation_diff) ∧
    (0 ≤ (eventPairMetrics event_type s1 s2).contribution_diff ∧
      0 ≤ (eventPairMetrics event_type s1 s2).merit_diff ∧
      0 ≤ (eventPairMetrics event_type s1 s2).assist_diff ∧
      0 ≤ (eventPairMetrics event_type s1 s2).donation_diff) :=
  ⟨⟨rfl, rfl, rfl, rfl, rfl⟩, ⟨rfl, rfl, rfl, rfl, rfl⟩,
    ⟨le_max_left 0 _, le_max_left 0 _, le_max_left 0 _, le_max_left 0 _⟩,
    ⟨le_max_left 0 _, le_max_left 0 _, le_max_left 0 _, le_max_left 0 _⟩⟩

/-! ## C2: rebuilding a season's periods is idempotent -/

/-- C2. `calculate_periods_for_season` deletes every stored period first and
computes the new ones only from the season start date and the upload set, so
running it twice over an unchanged upload set leaves exactly the state of one
run — the same periods (boundaries, day counts, numbers) and the same metric
rows per (member, period). -/
theorem calculate_periods_idempotent (season_start_date : Int)
    (uploads : List CsvUpload) (store : SeasonStore) :
    run_period_calculation season_start_date uploads
        (run_period_calculation season_start_date uploads store) =
      run_period_calculation season_start_date uploads store ∧
    (run_period_calculation season_start_date uploads store).periods =
      calculate_periods_for_season season_start_date uploads :=
  ⟨rfl, rfl⟩

/-! ## C3: the category participation predicate -/

/-- C3. Participation is a pure function of the diffs: SIEGE participates iff
`contribution_diff > 0` or `assist_diff > 0`, BATTLE iff `merit_diff > 0`,
FORBIDDEN never; on inputs `(contribution, merit, assist) = (0, 0, 5)` SIEGE
yields `True` and BATTLE yields `False`. -/
theorem participation_predicate_cases
    (contribution_diff merit_diff assist_diff power_diff : Int) :
    ((determine_participation .siege contribution_diff merit_diff assist_diff
        power_diff).1 = true ↔ 0 < contribution_diff ∨ 0 < assist_diff) ∧
    ((determine_participation .battle contribution_diff merit_diff assist_diff
        power_diff).1 = true ↔ 0 < merit_diff) ∧
    (determine_participation .forbidden contribution_diff merit_diff assist_diff
        power_diff).1 = false ∧
    (determine_participation .siege 0 0 5 0).1 = true ∧
    (determine_participation .battle 0 0 5 0).1 = false := by
  refine ⟨?_, ?_, rfl, by decide, by decide⟩
  · simp [determine_participation]
  · simp [determine_participation]

/-! ## C10: is_absent mirrors non-participation for members in both sets -/

/-- C10. For a member present in both snapshot sets, BATTLE and SIEGE events
set `is_absent = not participated` (so a member with zero relevant diffs is
both non-participating and absent), while FORBIDDEN events always set
`is_absent = False`. -/
theorem is_absent_mirrors_participation (event_type : EventCategory)
    (s1 s2 : MemberSnapshot)
    (contribution_diff merit_diff assist_diff power_diff : Int) :
    ((determine_participation event_type contribution_diff merit_diff
        assist_diff power_diff).2 =
      if event_type = .forbidden then false
      else !(determine_participation event_type contribution_diff merit_diff
        assist_diff power_diff).1) ∧
    ((eventPairMetrics event_type s1 s2).is_absent =
      if event_type = .forbidden then false
      else !(eventPairMetrics event_type s1 s2).participated) ∧
    ((eventPairMetrics .battle s1 s1).participated = false ∧
      (eventPairMetrics .battle s1 s1).is_absent = true) ∧
    (eventPairMetrics .forbidden s1 s1).is_absent = false := by
  refine ⟨?_, ?_, ⟨?_, ?_⟩, ?_⟩
  · rcases event_type <;> simp [determine_participation]
  · rcases event_type <;> simp [eventPairMetrics, determine_participation]
  · simp [eventPairMetrics, determine_participation]
  · simp [eventPairMetrics, determine_participation]
  · simp [eventPairMetrics, determine_participation]

/-! ## C6: zero-day periods are skipped silently -/

/-- C6. A candidate period whose end date is on or before its start date is
skipped entirely — `_calculate_first_period` and `_calculate_period` return
no period and no metric rows — and the loop continues with the remaining
uploads (the skipped upload still serves as the next pair's start), the
skipped candidate contributing nothing to the created list. -/
theorem zero_day_period_skipped (season_start_date : Int) (u v : CsvUpload)
    (us : List CsvUpload) (number : Nat)
    (hfirst : u.snapshot_date.day ≤ season_start_date)
    (hpair : v.snapshot_date.day ≤ u.snapshot_date.day) :
    calc_first_period season_start_date u number = none ∧
    calc_period u v number = none ∧
    period_candidates_rest u (v :: us) number =
      none :: period_candidates_rest v us (number + 1) ∧
    (period_candidates season_start_date (u :: us)).filterMap id =
      (period_candidates_rest u us 2).filterMap id := by
  have h1 : calc_first_period season_start_date u number = none := by
    simp only [calc_first_period]
    rw [if_pos (by linarith)]
  have h2 : calc_period u v number = none := by
    simp only [calc_period]
    rw [if_pos (by linarith)]
  refine ⟨h1, h2, ?_, ?_⟩
  · rw [period_candidates_rest, h2]
  · rw [period_candidates]
    have h1' : calc_first_period season_start_date u 1 = none := by
      simp only [calc_first_period]
      rw [if_pos (by linarith)]
    rw [h1', List.filterMap_cons]
    rfl

theorem calc_first_period_number {season_start_date : Int} {u : CsvUpload}
    {n : Nat} {pm : Period × List MemberPeriodMetrics}
    (h : calc_first_period season_start_date u n = some pm) :
    pm.1.period_number = n := by
  simp only [calc_first_period] at h
  split_ifs at h
  all_goals first
  | exact Option.noConfusion h
  | (cases h; rfl)

theorem calc_period_number {u v : CsvUpload} {n : Nat}
    {pm : Period × List MemberPeriodMetrics}
    (h : calc_period u v n = some pm) : pm.1.period_number = n := by
  simp only [calc_period] at h
  split_ifs at h
  all_goals first
  | exact Option.noConfusion h
  | (cases h; rfl)

theorem period_candidates_rest_number (prev : CsvUpload) (rest : List CsvUpload)
    (n : Nat) :
    ∀ i : Nat, ∀ pm : Period × List MemberPeriodMetrics,
      (period_candidates_rest prev rest n).get? i = some (some pm) →
        pm.1.period_number = n + i := by
  induction rest generalizing prev n with
  | nil => intro i pm h; simp [period_candidates_rest] at h
  | cons u us ih =>
    intro i pm h
    rw [period_candidates_rest] at h
    cases i with
    | zero =>
      simp only [List.get?_cons_zero, Option.some.injEq] at h
      simpa using calc_period_number h
    | succ j =>
      simp only [List.get?_cons_succ] at h
      have := ih u (n + 1) j pm h
      omega

theorem period_candidates_rest_chain (prev : CsvUpload) (rest : List CsvUpload)
    (n : Nat) :
    (∀ pm ∈ (period_candidates_rest prev rest n).filterMap id,
      n ≤ pm.1.period_number) ∧
    List.Chain' (fun p q : Period × List MemberPeriodMetrics =>
        p.1.period_number < q.1.period_number)
      ((period_candidates_rest prev rest n).filterMap id) := by
  induction rest generalizing prev n with
  | nil => simp [period_candidates_rest]
  | cons u us ih =>
    rw [period_candidates_rest]
    cases hc : calc_period prev u n with
    | none =>
      rw [List.filterMap_cons]
      refine ⟨fun pm hpm => ?_, (ih u (n + 1)).2⟩
      have := (ih u (n + 1)).1 pm hpm
      omega
    | some pm₀ =>
      rw [List.filterMap_cons]
      have hn := calc_period_number hc
      constructor
      · intro pm hpm
        rcases List.mem_cons.mp hpm with rfl | hpm'
        · omega
        · have := (ih u (n + 1)).1 pm hpm'
          omega
      · apply List.chain'_cons'.mpr
        refine ⟨fun y hy => ?_, (ih u (n + 1)).2⟩
        have hy' : y ∈ (period_candidates_rest u us (n + 1)).filterMap id :=
          List.mem_of_mem_head? hy
        have := (ih u (n + 1)).1 y hy'
        omega

/-! ## C7: period numbers follow upload positions, so skips leave gaps -/

/-- C7 counterexample. With the first upload dated on the season start day,
the first candidate period is skipped by the `days <= 0` guard, yet the
surviving period keeps `period_number = i + 1 = 2`: the created list is not
numbered sequentially from 1. -/
theorem period_numbers_counterexample :
    (calculate_periods_for_season 0
        [counterexampleUpload₁, counterexampleUpload₂]).map
        (fun p => p.1.period_number) = [2] := by
  have hs : [counterexampleUpload₁, counterexampleUpload₂].mergeSort
      (fun a b => UploadDateTime.le a.snapshot_date b.snapshot_date) =
      [counterexampleUpload₁, counterexampleUpload₂] :=
    List.mergeSort_of_sorted (by decide)
  rw [calculate_periods_for_season]
  rw [hs]
  decide

/-- C7 amended. `period_number` is 1 plus the position of the period's end
upload in the date-sorted upload list (skipped candidates still consume a
number), so across the created periods the numbers are strictly increasing —
but they may start above 1 and may have gaps. -/
theorem period_numbers_follow_upload_positions (season_start_date : Int)
    (uploads : List CsvUpload) :
    (∀ i : Nat, ∀ pm : Period × List MemberPeriodMetrics,
      (period_candidates season_start_date
          (uploads.mergeSort fun a b =>
            UploadDateTime.le a.snapshot_date b.snapshot_date)).get? i =
        some (some pm) → pm.1.period_number = i + 1) ∧
    List.Chain' (fun p q : Period × List MemberPeriodMetrics =>
        p.1.period_number < q.1.period_number)
      (calculate_periods_for_season season_start_date uploads) := by
  constructor
  · intro i pm h
    cases hs : uploads.mergeSort fun a b =>
        UploadDateTime.le a.snapshot_date b.snapshot_date with
    | nil => rw [hs] at h; simp [period_candidates] at h
    | cons u₀ rest =>
      rw [hs] at h
      rw [period_candidates] at h
      cases i with
      | zero =>
        simp only [List.get?_cons_zero, Option.some.injEq] at h
        exact calc_first_period_number h
      | succ j =>
        simp only [List.get?_cons_succ] at h
        have := period_candidates_rest_number u₀ rest 2 j pm h
        omega
  · rw [calculate_periods_for_season]
    cases hs : uploads.mergeSort fun a b =>
        UploadDateTime.le a.snapshot_date b.snapshot_date with
    | nil => simp [period_candidates]
    | cons u₀ rest =>
      rw [period_candidates]
      cases hf : calc_first_period season_start_date u₀ 1 with
      | none =>
        rw [List.filterMap_cons]
        exact (period_candidates_rest_chain u₀ rest 2).2
      | some pm₀ =>
        rw [List.filterMap_cons]
        have hchain := (period_candidates_rest_chain u₀ rest 2).2
        have hbound := (period_candidates_rest_chain u₀ rest 2).1
        apply List.chain'_cons'.mpr
        refine ⟨?_, hchain⟩
        intro y hy
        have hy' : y ∈ (period_candidates_rest u₀ rest 2).filterMap id :=
          List.mem_of_mem_head? hy
        have h2 : 2 ≤ y.1.period_number := hbound y hy'
        have h1 : pm₀.1.period_number = 1 := calc_first_period_number hf
        omega

/-- C6 witness: at a concrete zero-day pair (both uploads on the season start
day) the guard fires and no period is produced. -/
theorem zero_day_period_skipped_witness :
    calc_first_period 0 counterexampleUpload₁ 1 = none ∧
    calc_period counterexampleUpload₁ counterexampleUpload₁ 1 = none := by
  have h := zero_day_period_skipped 0 counterexampleUpload₁ counterexampleUpload₁
    [] 1 (by decide) (by decide)
  exact ⟨h.1, h.2.1⟩

/-- C7 amended witness: in the concrete skipped-first-candidate run, the
surviving candidate sits at index 1 and indeed carries `period_number = 2`. -/
theorem period_numbers_follow_upload_positions_witness :
    ({ start_upload_id := some 1
       end_upload_id := 2
       start_date := 0
       end_date := 7
       days := 7
       period_number := 2 } : Period).period_number = 1 + 1 := by
  have h := (period_numbers_follow_upload_positions 0
      [counterexampleUpload₁, counterexampleUpload₂]).1 1
      ({ start_upload_id := some 1
         end_upload_id := 2
         start_date := 0
         end_date := 7
         days := 7
         period_number := 2 }, [])
  apply h
  rw [List.mergeSort_of_sorted (by decide)]
  decide

/-! ## C8: daily rates are exact fixed-point half-even rounding -/

/-- C8. The stored daily rate is `diff / days` rounded to two decimal places
by fixed-point (half-even) rounding — the rounded cents are within half a
cent of the exact quotient — and concretely: a 5000 contribution diff over 7
days is stored as 714.29, while the first-period 7000 diff over 7 days is
stored as exactly 1000.00 with `is_new_member = True`. -/
theorem daily_rates_fixed_point (diff days : Int) (hdays : 0 < days) :
    2 * |dailyCents diff days * days - 100 * diff| ≤ days ∧
    (build_period_metrics scenarioStartSnapshot scenarioEndSnapshot 7).contribution_diff
      = 5000 ∧
    (build_period_metrics scenarioStartSnapshot
        scenarioEndSnapshot 7).daily_contribution_cents = 71429 ∧
    (build_first_period_metrics scenarioStartSnapshot 7).contribution_diff = 7000 ∧
    (build_first_period_metrics scenarioStartSnapshot 7).daily_contribution_cents
      = 100000 ∧
    (build_first_period_metrics scenarioStartSnapshot 7).is_new_member = true :=
  ⟨roundHalfEven_err (100 * diff) days hdays,
    by decide, by decide, by decide, by decide, rfl⟩

/-- C8 witness: the rounding-error bound instantiated at 5000 over 7 days. -/
theorem daily_rates_fixed_point_witness :
    (0 : Int) < 7 ∧ 2 * |dailyCents 5000 7 * 7 - 100 * 5000| ≤ 7 :=
  ⟨by decide, (daily_rates_fixed_point 5000 7 (by decide)).1⟩

theorem process_event_metrics_cases (event_type : EventCategory)
    (before after : List MemberSnapshot) (m : BattleEventMetrics)
    (hm : m ∈ process_event_metrics event_type before after) :
    (∃ s1 s2, m = eventPairMetrics event_type s1 s2) ∨
    (∃ s, m = eventNewMemberMetrics s) ∨
    (∃ s, m = eventDepartedMetrics s) := by
  unfold process_event_metrics at hm
  rcases List.mem_append.mp hm with h | h
  · rcases List.mem_map.mp h with ⟨x, hx, he⟩
    cases hf : before.find? (fun b => b.member_id = x.member_id) with
    | some s => rw [hf] at he; exact Or.inl ⟨s, x, he.symm⟩
    | none => rw [hf] at he; exact Or.inr (Or.inl ⟨x, he.symm⟩)
  · rcases List.mem_map.mp h with ⟨x, hx, he⟩
    exact Or.inr (Or.inr ⟨x, he.symm⟩)

theorem process_participated_not_new (event_type : EventCategory)
    (before after : List MemberSnapshot) :
    ∀ m ∈ process_event_metrics event_type before after,
      m.participated = true → m.is_new_member = false := by
  intro m hm hp
  rcases process_event_metrics_cases event_type before after m hm with
    ⟨s1, s2, rfl⟩ | ⟨s, rfl⟩ | ⟨s, rfl⟩
  · rfl
  · simp [eventNewMemberMetrics] at hp
  · simp [eventDepartedMetrics] at hp

theorem battle_nonparticipant_merit_zero (s1 s2 : MemberSnapshot)
    (h : (eventPairMetrics .battle s1 s2).participated = false) :
    (eventPairMetrics .battle s1 s2).merit_diff = 0 := by
  simp only [eventPairMetrics, determine_participation] at h ⊢
  simp at h
  omega

theorem siege_nonparticipant_zero (s1 s2 : MemberSnapshot)
    (h : (eventPairMetrics .siege s1 s2).participated = false) :
    (eventPairMetrics .siege s1 s2).contribution_diff = 0 ∧
    (eventPairMetrics .siege s1 s2).assist_diff = 0 := by
  simp only [eventPairMetrics, determine_participation] at h ⊢
  simp at h
  omega

theorem sum_map_filter_of_zero (l : List BattleEventMetrics)
    (f : BattleEventMetrics → Int) (p : BattleEventMetrics → Bool)
    (h : ∀ m ∈ l, p m = false → f m = 0) :
    ((l.filter p).map f).sum = (l.map f).sum := by
  induction l with
  | nil => rfl
  | cons x t ih =>
    have ht := ih fun m hm => h m (List.mem_cons_of_mem x hm)
    rw [List.filter_cons]
    by_cases hp : p x = true
    · rw [if_pos hp]
      simp only [List.map_cons, List.sum_cons, ht]
    · rw [if_neg hp]
      have h0 : f x = 0 := h x (List.mem_cons_self x t) (Bool.not_eq_true _ ▸ hp)
      simp only [List.map_cons, List.sum_cons, ht, h0, zero_add]

theorem calc_summary_total_fields (ms : List BattleEventMetrics)
    (event_type : EventCategory) :
    (calc_summary_from_metrics ms event_type).total_merit =
      (ms.map (·.merit_diff)).sum ∧
    (calc_summary_from_metrics ms event_type).total_assist =
      (ms.map (·.assist_diff)).sum ∧
    (calc_summary_from_metrics ms event_type).total_contribution =
      (ms.map (·.contribution_diff)).sum := by
  cases ms with
  | nil => exact ⟨rfl, rfl, rfl⟩
  | cons m t => exact ⟨rfl, rfl, rfl⟩

/-! ## C4: what the summary totals and averages actually range over -/

/-- C4 counterexample. A BATTLE event with one member present in both sets
who gained 500 contribution but no merit: the member is a non-participant
(`participated_count = 0`), yet the summary's `total_contribution` is 500 —
the totals are not computed only over `participated == True` records (which
would give 0). -/
theorem summary_totals_counterexample :
    (calc_summary_from_metrics
        (process_event_metrics .battle [zeroSnapshot] [contributionOnlySnapshot])
        .battle).total_contribution = 500 ∧
    (process_event_metrics .battle [zeroSnapshot]
        [contributionOnlySnapshot]).countP (·.participated) = 0 := by
  constructor <;> decide

/-- C4 amended. The summary totals sum the diffs of every metric record, and
the averages divide those totals by the participant count. This coincides
with summing only participants for the category's own field — BATTLE's
`total_merit`, SIEGE's `total_contribution` and `total_assist` — because
non-participants have zero there; and new members and departed-only members
contribute nothing anywhere since all their diffs are zero. The other totals
(e.g. `total_contribution` of a BATTLE or FORBIDDEN event) do include
non-participant records. -/
theorem summary_totals_amended (event_type : EventCategory)
    (before after : List MemberSnapshot) :
    ((calc_summary_from_metrics (process_event_metrics event_type before after)
        event_type).total_merit =
      ((process_event_metrics event_type before after).map (·.merit_diff)).sum ∧
     (calc_summary_from_metrics (process_event_metrics event_type before after)
        event_type).total_assist =
      ((process_event_metrics event_type before after).map (·.assist_diff)).sum ∧
     (calc_summary_from_metrics (process_event_metrics event_type before after)
        event_type).total_contribution =
      ((process_event_metrics event_type before after).map
        (·.contribution_diff)).sum) ∧
    (event_type = .battle →
      (calc_summary_from_metrics (process_event_metrics event_type before after)
          event_type).total_merit =
        (((process_event_metrics event_type before after).filter
            (·.participated)).map (·.merit_diff)).sum) ∧
    (event_type = .siege →
      (calc_summary_from_metrics (process_event_metrics event_type before after)
          event_type).total_contribution =
        (((process_event_metrics event_type before after).filter
            (·.participated)).map (·.contribution_diff)).sum ∧
      (calc_summary_from_metrics (process_event_metrics event_type before after)
          event_type).total_assist =
        (((process_event_metrics event_type before after).filter
            (·.participated)).map (·.assist_diff)).sum) ∧
    (∀ m ∈ process_event_metrics event_type before after,
      m.is_new_member = true ∨ m.end_snapshot_id = none →
        m.contribution_diff = 0 ∧ m.merit_diff = 0 ∧
        m.assist_diff = 0 ∧ m.donation_diff = 0) := by
  refine ⟨calc_summary_total_fields _ _, ?_, ?_, ?_⟩
  · rintro rfl
    rw [(calc_summary_total_fields _ _).1]
    refine (sum_map_filter_of_zero _ _ _ fun m hm hp => ?_).symm
    rcases process_event_metrics_cases _ _ _ m hm with
      ⟨s1, s2, rfl⟩ | ⟨s, rfl⟩ | ⟨s, rfl⟩
    · exact battle_nonparticipant_merit_zero s1 s2 hp
    · rfl
    · rfl
  · rintro rfl
    constructor
    · rw [(calc_summary_total_fields _ _).2.2]
      refine (sum_map_filter_of_zero _ _ _ fun m hm hp => ?_).symm
      rcases process_event_metrics_cases _ _ _ m hm with
        ⟨s1, s2, rfl⟩ | ⟨s, rfl⟩ | ⟨s, rfl⟩
      · exact (siege_nonparticipant_zero s1 s2 hp).1
      · rfl
      · rfl
    · rw [(calc_summary_total_fields _ _).2.1]
      refine (sum_map_filter_of_zero _ _ _ fun m hm hp => ?_).symm
      rcases process_event_metrics_cases _ _ _ m hm with
        ⟨s1, s2, rfl⟩ | ⟨s, rfl⟩ | ⟨s, rfl⟩
      · exact (siege_nonparticipant_zero s1 s2 hp).2
      · rfl
      · rfl
  · intro m hm hcase
    rcases process_event_metrics_cases _ _ _ m hm with
      ⟨s1, s2, rfl⟩ | ⟨s, rfl⟩ | ⟨s, rfl⟩
    · rcases hcase with h | h
      · simp [eventPairMetrics] at h
      · simp [eventPairMetrics] at h
    · exact ⟨rfl, rfl, rfl, rfl⟩
    · exact ⟨rfl, rfl, rfl, rfl⟩

/-- C4 amended witness: a concrete BATTLE event where the merit total equals
the participants-only merit total. -/
theorem summary_totals_amended_witness :
    (calc_summary_from_metrics
        (process_event_metrics .battle [zeroSnapshot] [contributionOnlySnapshot])
        .battle).total_merit =
      (((process_event_metrics .battle [zeroSnapshot]
          [contributionOnlySnapshot]).filter (·.participated)).map
        (·.merit_diff)).sum :=
  (summary_totals_amended .battle [zeroSnapshot] [contributionOnlySnapshot]).2.1 rfl

theorem rate_expr_bounds (p : Nat) (e : Int) (hpe : (p : Int) ≤ e) :
    0 ≤ ratRound1 (if 0 < e then (p : ℚ) / (e : ℚ) * 100 else 0) ∧
    ratRound1 (if 0 < e then (p : ℚ) / (e : ℚ) * 100 else 0) ≤ 100 := by
  split_ifs with he
  · have heq : (0 : ℚ) < (e : ℚ) := by exact_mod_cast he
    refine ratRound1_bounds _ (by positivity) ?_
    have h1 : (p : ℚ) / (e : ℚ) ≤ 1 := by
      rw [div_le_one heq]
      exact_mod_cast hpe
    calc (p : ℚ) / (e : ℚ) * 100 ≤ 1 * 100 :=
      mul_le_mul_of_nonneg_right h1 (by norm_num)
    _ = 100 := by norm_num
  · rw [ratRound1_zero]
    norm_num

theorem rate_expr_zero (p : Nat) (e : Int) (he : e ≤ 0) :
    ratRound1 (if 0 < e then (p : ℚ) / (e : ℚ) * 100 else 0) = 0 := by
  rw [if_neg (by omega), ratRound1_zero]

theorem summary_rate_bounds_of (ms : List BattleEventMetrics)
    (event_type : EventCategory)
    (hdisj : ∀ m ∈ ms, m.participated = true → m.is_new_member = false) :
    (0 ≤ (calc_summary_from_metrics ms event_type).participation_rate ∧
      (calc_summary_from_metrics ms event_type).participation_rate ≤ 100) ∧
    (ms.length = ms.countP (·.is_new_member) →
      (calc_summary_from_metrics ms event_type).participation_rate = 0) := by
  have hcount := countP_add_countP_le_length ms (·.participated) (·.is_new_member) hdisj
  have hle := List.countP_le_length (p := (·.is_new_member)) (l := ms)
  cases ms with
  | nil =>
    refine ⟨⟨le_refl _, by norm_num [calc_summary_from_metrics, emptyEventSummary]⟩, ?_⟩
    intro
    rfl
  | cons m t =>
    refine ⟨rate_expr_bounds ((m :: t).countP (·.participated))
        (((m :: t).length : Int) - ((m :: t).countP (·.is_new_member) : Int))
        (by omega), ?_⟩
    intro hlen
    exact rate_expr_zero ((m :: t).countP (·.participated))
      (((m :: t).length : Int) - ((m :: t).countP (·.is_new_member) : Int))
      (by omega)

/-! ## C5: the participation rate is total, bounded and exact -/

/-- C5. For metric records produced by `process_event_snapshots` (where a
participated record is never a new-member record), the summary's
participation rate — an exact rational in this embedding, so never NaN — lies
in [0, 100]; and when the eligible count `total_members - new_member_count`
is zero the guard returns exactly 0 instead of dividing by zero. -/
theorem participation_rate_in_range (event_type : EventCategory)
    (before after : List MemberSnapshot) :
    (0 ≤ (calc_summary_from_metrics (process_event_metrics event_type before after)
        event_type).participation_rate ∧
      (calc_summary_from_metrics (process_event_metrics event_type before after)
        event_type).participation_rate ≤ 100) ∧
    ((process_event_metrics event_type before after).length =
        (process_event_metrics event_type before after).countP (·.is_new_member) →
      (calc_summary_from_metrics (process_event_metrics event_type before after)
        event_type).participation_rate = 0) :=
  summary_rate_bounds_of _ _ (process_participated_not_new event_type before after)

/-- C5 witness: with no snapshots at all the eligible count is zero and the
rate is exactly 0 (and in range). -/
theorem participation_rate_in_range_witness :
    (calc_summary_from_metrics (process_event_metrics .battle [] [])
        .battle).participation_rate = 0 ∧
    0 ≤ (calc_summary_from_metrics (process_event_metrics .battle [] [])
        .battle).participation_rate :=
  ⟨(participation_rate_in_range .battle [] []).2 rfl,
    (participation_rate_in_range .battle [] []).1.1⟩

theorem groupLE_trans (event_type : EventCategory) (a b c : GroupEventStats)
    (hab : groupLE event_type a b) (hbc : groupLE event_type b c) :
    groupLE event_type a c := by
  simp only [groupLE, decide_eq_true_eq] at *
  omega

theorem groupLE_total (event_type : EventCategory) (a b : GroupEventStats) :
    groupLE event_type a b || groupLE event_type b a := by
  simp only [groupLE, Bool.or_eq_true, decide_eq_true_eq]
  omega

/-! ## C9: group ranking is a stable descending sort by the primary metric -/

/-- C9. The group ranking of `get_event_group_analytics` is the stable
descending sort of the first-appearance-ordered group stats by the
category's primary metric (merit for BATTLE, contribution+assist for SIEGE,
violator count for FORBIDDEN): the output is a permutation of the unsorted
stats, it is sorted descending by the primary metric, and two groups with
equal primary metric keep the relative order their first member records gave
them. -/
theorem group_ranking_stable (event_type : EventCategory)
    (metrics : List BattleEventMetrics) (g1 g2 : GroupEventStats)
    (hsub : [g1, g2].Sublist (groupStatsList metrics event_type))
    (heq : groupPrimary event_type g1 = groupPrimary event_type g2) :
    (sortedGroupStats metrics event_type).Perm
      (groupStatsList metrics event_type) ∧
    (sortedGroupStats metrics event_type).Pairwise
      (fun a b => groupPrimary event_type b ≤ groupPrimary event_type a) ∧
    [g1, g2].Sublist (sortedGroupStats metrics event_type) := by
  unfold sortedGroupStats
  refine ⟨List.mergeSort_perm _ _, ?_, ?_⟩
  · have h := List.sorted_mergeSort (groupLE_trans event_type)
      (groupLE_total event_type) (groupStatsList metrics event_type)
    exact h.imp fun hab => by
      simpa only [groupLE, decide_eq_true_eq] using hab
  · exact List.pair_sublist_mergeSort (groupLE_trans event_type)
      (groupLE_total event_type)
      (by simp only [groupLE, heq, decide_eq_true_eq]; omega) hsub

/-- C9 witness: two singleton groups "A" and "B" with equal merit totals stay
in input (first-appearance) order after sorting. -/
theorem group_ranking_stable_witness :
    [calc_group_stats "A" [stableWitnessMetric₁] .battle,
      calc_group_stats "B" [stableWitnessMetric₂] .battle].Sublist
      (sortedGroupStats [stableWitnessMetric₁, stableWitnessMetric₂] .battle) := by
  have hlist : groupStatsList [stableWitnessMetric₁, stableWitnessMetric₂] .battle =
      [calc_group_stats "A" [stableWitnessMetric₁] .battle,
        calc_group_stats "B" [stableWitnessMetric₂] .battle] := rfl
  have h := group_ranking_stable .battle
    [stableWitnessMetric₁, stableWitnessMetric₂]
    (calc_group_stats "A" [stableWitnessMetric₁] .battle)
    (calc_group_stats "B" [stableWitnessMetric₂] .battle)
    (by rw [hlist]) (by decide)
  exact h.2.2

end TKS
